import Mathlib

/-!
Shallow embedding of `src/paf/xcm.py`, a Python ctypes binding to the XCM
(Extensible Connection-oriented Messaging) native library.

The binding's own logic (open-handle guard, condition cache, error
construction, attribute decoding, handle wrapping) is translated directly.
The native library `libxcm` is not part of the repository: each binding
operation is parametrised over the native entry point it calls, given as a
state-transforming function over an abstract native-state type `σ`.  Where a
claim depends on native behaviour, a `Modelled from the spec:` definition
instantiates that parameter following the specification's words.  A recording
instantiation (`σ := List NCall`) is used where only the fact and arguments of
a native call matter.
-/

namespace Xcm

/-- Attribute type tags (xcm.py lines 60-63, values of the native enum). -/
def ATTR_TYPE_BOOL : Int := 1

/-- Attribute type tag for signed 64-bit integers. -/
def ATTR_TYPE_INT64 : Int := 2

/-- Attribute type tag for UTF-8 strings. -/
def ATTR_TYPE_STR : Int := 3

/-- Attribute type tag for opaque binary blobs. -/
def ATTR_TYPE_BIN : Int := 4

/-- Maximum message size in bytes (xcm.py line 70). -/
def MAX_MSG : Nat := 65535

/-- Readiness condition bit: receivable. -/
def SO_RECEIVABLE : Nat := 1

/-- Readiness condition bit: sendable. -/
def SO_SENDABLE : Nat := 2

/-- Readiness condition bit: acceptable. -/
def SO_ACCEPTABLE : Nat := 4

/-- Connect flag: non-blocking from creation. -/
def NONBLOCK : Nat := 1

/-- Linux errno: no such file or directory. -/
def ENOENT : Nat := 2

/-- Linux errno: bad file descriptor. -/
def EBADF : Nat := 9

/-- Linux errno: resource temporarily unavailable (the would-block code). -/
def EAGAIN : Nat := 11

/-- Linux errno: value too large for defined data type (attribute buffer
too small: the resource-exhaustion code of the attribute path). -/
def EOVERFLOW : Nat := 75

/-- Linux errno: message too long (the resource-exhaustion code of the
send path). -/
def EMSGSIZE : Nat := 90

/-- Model of `os.strerror`: the fixed human-readable description the OS
associates with each errno value. -/
def strerror (e : Nat) : String :=
  if e = ENOENT then "No such file or directory"
  else if e = EBADF then "Bad file descriptor"
  else if e = EAGAIN then "Resource temporarily unavailable"
  else if e = EOVERFLOW then "Value too large for defined data type"
  else if e = EMSGSIZE then "Message too long"
  else "Unknown error " ++ toString e

/-- The Python exceptions the binding can raise.  `ioError` is the class
`error(socket.error)` raised by `_raise_io_err`, carrying errno and its
description; `assertionError` is what the `assert` in `_assure_open`
raises; `valueError` is raised by `update` and `_conv_attr`;
`unicodeDecodeError` is raised by `bytes.decode` on invalid UTF-8. -/
inductive PyErr where
  | assertionError
  | valueError (msg : String)
  | unicodeDecodeError
  | ioError (errno : Nat) (text : String)
deriving Repr, DecidableEq

/-- `_raise_io_err` (xcm.py lines 158-160): builds the structured error
from the current errno and its `os.strerror` description. -/
def _raise_io_err (errno : Nat) : PyErr :=
  .ioError errno (strerror errno)

/-- The Python values `_conv_attr` can return: a bool, an int, a decoded
string (as its list of Unicode code points) or a bytes object. -/
inductive AttrValue where
  | boolVal (v : Bool)
  | intVal (v : Int)
  | strVal (codepoints : List Nat)
  | binVal (bytes : List Nat)
deriving Repr, DecidableEq

/-- The type tag each `AttrValue` constructor corresponds to. -/
def AttrValue.tagOf : AttrValue → Int
  | .boolVal _ => ATTR_TYPE_BOOL
  | .intVal _ => ATTR_TYPE_INT64
  | .strVal _ => ATTR_TYPE_STR
  | .binVal _ => ATTR_TYPE_BIN

/-- Little-endian value of a byte list (each entry taken mod 256, as one
memory byte). -/
def leNat : List Nat → Nat
  | [] => 0
  | b :: t => b % 256 + 256 * leNat t

/-- Reading a `c_bool` from the buffer: the first byte, nonzero meaning
true (ctypes `cast(raw, POINTER(c_bool)).contents.value`). -/
def decodeBool (buf : List Nat) : Bool :=
  buf.headD 0 != 0

/-- Reading a `c_long` (64-bit signed, little-endian on Linux x86-64)
from the first 8 bytes of the buffer. -/
def decodeInt64 (buf : List Nat) : Int :=
  let u := leNat (buf.take 8)
  if u < 2 ^ 63 then (u : Int) else (u : Int) - 2 ^ 64

/-- The `.value` of a ctypes string buffer: its bytes up to (excluding)
the first NUL. -/
def cstrBytes (buf : List Nat) : List Nat :=
  buf.takeWhile (fun b => b != 0)

/-- Whether a byte is a UTF-8 continuation byte (10xxxxxx). -/
def utf8Cont (b : Nat) : Bool :=
  decide (0x80 ≤ b) && decide (b < 0xC0)

/-- Strict UTF-8 decoding, as Python `bytes.decode` with the default
strict handler: rejects stray continuation bytes, overlong encodings,
surrogate code points and values above U+10FFFF.  Returns the decoded
code points, or `none` on invalid input. -/
def utf8Decode : List Nat → Option (List Nat)
  | [] => some []
  | b1 :: t1 =>
    if b1 < 0x80 then
      (utf8Decode t1).map (fun cs => b1 :: cs)
    else if b1 < 0xC2 then none
    else if b1 < 0xE0 then
      match t1 with
      | b2 :: t2 =>
        if utf8Cont b2 then
          (utf8Decode t2).map (fun cs => ((b1 - 0xC0) * 0x40 + (b2 - 0x80)) :: cs)
        else none
      | [] => none
    else if b1 < 0xF0 then
      match t1 with
      | b2 :: b3 :: t3 =>
        if utf8Cont b2 && utf8Cont b3
            && !(decide (b1 = 0xE0) && decide (b2 < 0xA0))
            && !(decide (b1 = 0xED) && decide (0xA0 ≤ b2)) then
          (utf8Decode t3).map (fun cs =>
            ((b1 - 0xE0) * 0x1000 + (b2 - 0x80) * 0x40 + (b3 - 0x80)) :: cs)
        else none
      | _ => none
    else if b1 < 0xF5 then
      match t1 with
      | b2 :: b3 :: b4 :: t4 =>
        if utf8Cont b2 && utf8Cont b3 && utf8Cont b4
            && !(decide (b1 = 0xF0) && decide (b2 < 0x90))
            && !(decide (b1 = 0xF4) && decide (0x90 ≤ b2)) then
          (utf8Decode t4).map (fun cs =>
            ((b1 - 0xF0) * 0x40000 + (b2 - 0x80) * 0x1000
              + (b3 - 0x80) * 0x40 + (b4 - 0x80)) :: cs)
        else none
      | _ => none
    else none

/-- `_conv_attr` (xcm.py lines 79-91): decode the attribute buffer
according to the type tag, raising `ValueError` on any other tag. -/
def _conv_attr (attr_type : Int) (attr_value : List Nat) (attr_len : Nat) :
    Except PyErr AttrValue :=
  if attr_type = ATTR_TYPE_BOOL then
    .ok (.boolVal (decodeBool attr_value))
  else if attr_type = ATTR_TYPE_INT64 then
    .ok (.intVal (decodeInt64 attr_value))
  else if attr_type = ATTR_TYPE_STR then
    match utf8Decode (cstrBytes attr_value) with
    | some cps => .ok (.strVal cps)
    | none => .error .unicodeDecodeError
  else if attr_type = ATTR_TYPE_BIN then
    .ok (.binVal (attr_value.take attr_len))
  else
    .error (.valueError ("Invalid argument type " ++ toString attr_type))

/-- The Python-side state of a `Socket` object: the wrapped native handle
(`None` once closed; ctypes maps a NULL `c_void_p` to `None`) and the
cached last-requested readiness condition (`Socket.__init__`,
xcm.py lines 101-104). -/
structure Socket where
  xcm_socket : Option Nat
  condition : Nat
deriving Repr, DecidableEq

/-- A native-library invocation, for recording instantiations of the
native state: which entry point was called and with which arguments.
The handle argument of `sendC`, `receiveC` and `acceptC` is an
`Option Nat` because those binding methods pass `self.xcm_socket`
unchecked, so the native function can receive NULL (`none`). -/
inductive NCall where
  | sendC (handle : Option Nat) (msg : List Nat)
  | receiveC (handle : Option Nat)
  | acceptC (handle : Option Nat)
  | awaitC (handle : Nat) (cond : Nat)
  | closeC (handle : Nat)
  | finishC (handle : Nat)
  | fdC (handle : Nat)
  | setBlockingC (handle : Nat) (val : Bool)
  | isBlockingC (handle : Nat)
  | attrGetC (handle : Nat) (name : String) (capacity : Nat)
deriving Repr, DecidableEq

/-- The native buffer after the native side writes `written` into a
buffer previously holding `buf`: the written bytes followed by the
untouched remainder. -/
def writeBuf (buf written : List Nat) : List Nat :=
  written ++ buf.drop written.length

/-- `Socket.close` (xcm.py lines 106-110): guarded by `_assure_open`
(assert the handle is not None), then releases the native handle and
clears it.  The native close is the parameter `xcmClose`. -/
def Socket.close {σ : Type} (xcmClose : Nat → σ → σ × Int) (st : σ)
    (s : Socket) : Except PyErr Unit × Socket × σ :=
  match s.xcm_socket with
  | none => (.error .assertionError, s, st)
  | some h =>
    let (st', _) := xcmClose h st
    (.ok (), { s with xcm_socket := none }, st')

/-- `Socket.__del__` (xcm.py lines 153-155): owner teardown; calls
`close` only when the handle is still set. -/
def Socket.del {σ : Type} (xcmClose : Nat → σ → σ × Int) (st : σ)
    (s : Socket) : Except PyErr Unit × Socket × σ :=
  match s.xcm_socket with
  | none => (.ok (), s, st)
  | some _ => Socket.close xcmClose st s

/-- `Socket.finish` (xcm.py lines 112-116): guarded by `_assure_open`;
drives the native operation, raising the structured I/O error on a
negative return code. -/
def Socket.finish {σ : Type} (xcmFinish : Nat → σ → σ × Int × Nat) (st : σ)
    (s : Socket) : Except PyErr Unit × σ :=
  match s.xcm_socket with
  | none => (.error .assertionError, st)
  | some h =>
    let (st', rc, e) := xcmFinish h st
    if rc < 0 then (.error (_raise_io_err e), st') else (.ok (), st')

/-- `Socket.set_blocking` (xcm.py lines 118-120): guarded by
`_assure_open`; the native return code is ignored by the binding. -/
def Socket.set_blocking {σ : Type} (xcmSetBlocking : Nat → Bool → σ → σ)
    (st : σ) (s : Socket) (val : Bool) : Except PyErr Unit × σ :=
  match s.xcm_socket with
  | none => (.error .assertionError, st)
  | some h => (.ok (), xcmSetBlocking h val st)

/-- `Socket.is_blocking` (xcm.py lines 122-124): guarded by
`_assure_open`. -/
def Socket.is_blocking {σ : Type} (xcmIsBlocking : Nat → σ → σ × Bool)
    (st : σ) (s : Socket) : Except PyErr Bool × σ :=
  match s.xcm_socket with
  | none => (.error .assertionError, st)
  | some h =>
    let (st', b) := xcmIsBlocking h st
    (.ok b, st')

/-- `Socket.update` (xcm.py lines 126-133): guarded by `_assure_open`;
calls the native `xcm_await` only when the requested condition differs
from the cached one, raising `ValueError` (cache untouched) when the
native side rejects it, and caching the new condition on success. -/
def Socket.update {σ : Type} (xcmAwait : Nat → Nat → σ → σ × Int) (st : σ)
    (s : Socket) (condition : Nat) : Except PyErr Unit × Socket × σ :=
  match s.xcm_socket with
  | none => (.error .assertionError, s, st)
  | some h =>
    if condition ≠ s.condition then
      let (st', rc) := xcmAwait h condition st
      if rc < 0 then
        (.error (.valueError ("invalid condition: " ++ toString condition)), s, st')
      else
        (.ok (), { s with condition := condition }, st')
    else
      (.ok (), s, st)

/-- `Socket.fileno` (xcm.py lines 135-140): guarded by `_assure_open`;
returns the native pollable descriptor, raising the structured I/O error
on a negative return code. -/
def Socket.fileno {σ : Type} (xcmFd : Nat → σ → σ × Int × Nat) (st : σ)
    (s : Socket) : Except PyErr Int × σ :=
  match s.xcm_socket with
  | none => (.error .assertionError, st)
  | some h =>
    let (st', rc, e) := xcmFd h st
    if rc < 0 then (.error (_raise_io_err e), st') else (.ok rc, st')

/-- `Socket.get_attr` (xcm.py lines 142-151): guarded by `_assure_open`;
allocates a 1024-byte buffer, calls the native `xcm_attr_get` with that
capacity, raises the structured I/O error on failure and otherwise
decodes via `_conv_attr` (the native call yields the return code, the
type tag, the bytes it wrote and the errno). -/
def Socket.get_attr {σ : Type}
    (xcmAttrGet : Nat → String → Nat → σ → σ × Int × Int × List Nat × Nat)
    (st : σ) (s : Socket) (attr_name : String) : Except PyErr AttrValue × σ :=
  match s.xcm_socket with
  | none => (.error .assertionError, st)
  | some h =>
    let attr_capacity := 1024
    let (st', rc, attr_type, written, e) := xcmAttrGet h attr_name attr_capacity st
    if rc < 0 then (.error (_raise_io_err e), st')
    else (_conv_attr attr_type (writeBuf (List.replicate attr_capacity 0) written) rc.toNat, st')

/-- `ConnectionSocket.send` (xcm.py lines 171-175): NOT guarded by
`_assure_open` — the handle (possibly `none`, i.e. NULL) is passed to the
native `xcm_send` as-is; a negative return code raises the structured
I/O error, success returns 0. -/
def ConnectionSocket.send {σ : Type}
    (xcmSend : Option Nat → List Nat → σ → σ × Int × Nat) (st : σ)
    (s : Socket) (msg : List Nat) : Except PyErr Nat × σ :=
  let (st', rc, e) := xcmSend s.xcm_socket msg st
  if rc < 0 then (.error (_raise_io_err e), st')
  else (.ok 0, st')

/-- `ConnectionSocket.receive` (xcm.py lines 177-182): NOT guarded by
`_assure_open`; allocates a MAX_MSG-byte buffer, passes the handle
(possibly NULL) to the native `xcm_receive`, raises on a negative return
code, and otherwise returns the first `rc` bytes of the buffer. -/
def ConnectionSocket.receive {σ : Type}
    (xcmReceive : Option Nat → Nat → σ → σ × Int × List Nat × Nat) (st : σ)
    (s : Socket) : Except PyErr (List Nat) × σ :=
  let buf := List.replicate MAX_MSG 0
  let (st', rc, written, e) := xcmReceive s.xcm_socket MAX_MSG st
  if rc < 0 then (.error (_raise_io_err e), st')
  else (.ok ((writeBuf buf written).take rc.toNat), st')

/-- `ServerSocket.accept` (xcm.py lines 189-194): NOT guarded by
`_assure_open`; passes the handle (possibly NULL) to the native
`xcm_accept`; a non-NULL result is wrapped in a fresh
`ConnectionSocket` (whose `Socket.__init__` zeroes the condition
cache), NULL raises the structured I/O error. -/
def ServerSocket.accept {σ : Type}
    (xcmAccept : Option Nat → σ → σ × Option Nat × Nat) (st : σ)
    (s : Socket) : Except PyErr Socket × σ :=
  let (st', r, e) := xcmAccept s.xcm_socket st
  match r with
  | some h => (.ok { xcm_socket := some h, condition := 0 }, st')
  | none => (.error (_raise_io_err e), st')

/-- `connect` (xcm.py lines 197-202): wraps a non-NULL native handle in
a fresh `ConnectionSocket`, raising the structured I/O error on NULL. -/
def connect (xcmConnect : String → Nat → Option Nat) (errno : Nat)
    (addr : String) (flags : Nat) : Except PyErr Socket :=
  match xcmConnect addr flags with
  | some h => .ok { xcm_socket := some h, condition := 0 }
  | none => .error (_raise_io_err errno)

/-- `server` (xcm.py lines 205-210): wraps a non-NULL native handle in a
fresh `ServerSocket`, raising the structured I/O error on NULL. -/
def server (xcmServer : String → Option Nat) (errno : Nat)
    (addr : String) : Except PyErr Socket :=
  match xcmServer addr with
  | some h => .ok { xcm_socket := some h, condition := 0 }
  | none => .error (_raise_io_err errno)

/-- Recording native await: appends the call to the trace and answers
with the given return-code function. -/
def awaitRec (rcOf : Nat → Nat → Int) : Nat → Nat → List NCall → List NCall × Int :=
  fun h c t => (t ++ [NCall.awaitC h c], rcOf h c)

/-- Recording native close: appends the call to the trace and succeeds. -/
def closeRec : Nat → List NCall → List NCall × Int :=
  fun h t => (t ++ [NCall.closeC h], 0)

/-- Modelled from the spec: the native `xcm_send` of `libxcm` (only its
ctypes declaration is in the repository).  A message longer than the
fixed maximum message size is rejected with Resource Exhaustion
(`EMSGSIZE`) and has no effect; otherwise the message is handed to the
transport whole, preserving its boundary.  Defined on valid (non-NULL)
handles; a NULL handle is undefined behaviour in the native library and
is modelled here as a bad-descriptor failure.  The native state is the
FIFO of messages delivered to the transport. -/
def xcm_send_spec : Option Nat → List Nat → List (List Nat) →
    List (List Nat) × Int × Nat
  | none, _, q => (q, -1, EBADF)
  | some _, msg, q =>
    if msg.length > MAX_MSG then (q, -1, EMSGSIZE)
    else (q ++ [msg], 0, 0)

/-- The receive-side native state: the FIFO of complete messages the
peer has sent and, once it is exhausted, whether the peer performed an
orderly shutdown. -/
structure RecvState where
  incoming : List (List Nat)
  peerShutdown : Bool
deriving Repr, DecidableEq

/-- Modelled from the spec: the native `xcm_receive` of `libxcm` (only
its ctypes declaration is in the repository).  It delivers exactly one
complete previously-sent message into the caller's buffer — never a
partial message, never two coalesced — returning its length; it returns
0 when the peer performed an orderly shutdown with no more data, and a
negative return code with an errno otherwise (would block, or a message
too large for the supplied buffer).  A NULL handle is undefined
behaviour, modelled as a bad-descriptor failure. -/
def xcm_receive_spec : Option Nat → Nat → RecvState →
    RecvState × Int × List Nat × Nat
  | none, _, st => (st, -1, [], EBADF)
  | some _, capacity, st =>
    match st.incoming with
    | m :: rest =>
      if m.length ≤ capacity then
        ({ st with incoming := rest }, (m.length : Int), m, 0)
      else (st, -1, [], EMSGSIZE)
    | [] =>
      if st.peerShutdown then (st, 0, [], 0)
      else (st, -1, [], EAGAIN)

/-- The native attribute state: the attributes the transport currently
exposes, as a name-indexed association list of type tag and true value
bytes. -/
structure AttrStore where
  attrs : List (String × Int × List Nat)
deriving Repr, DecidableEq

/-- Modelled from the spec: the native `xcm_attr_get` of `libxcm` (only
its ctypes declaration is in the repository).  It reads the named
attribute into the caller-provided buffer of the caller-specified
maximum capacity: an unknown name fails (`ENOENT`); a true value larger
than the capacity fails with Resource Exhaustion (`EOVERFLOW`) and
writes nothing, rather than truncating; otherwise the value bytes are
written and the call returns their count together with the type tag. -/
def xcm_attr_get_spec (_h : Nat) (name : String) (capacity : Nat)
    (store : AttrStore) : AttrStore × Int × Int × List Nat × Nat :=
  match store.attrs.lookup name with
  | none => (store, -1, 0, [], ENOENT)
  | some (ty, val) =>
    if capacity < val.length then (store, -1, 0, [], EOVERFLOW)
    else (store, (val.length : Int), ty, val, 0)

/-- The native world for the socket-lifecycle models: the next fresh
handle value, the currently open handles, and each handle's blocking
mode. -/
structure NativeWorld where
  nextHandle : Nat
  openHandles : List Nat
  blocking : Nat → Bool

/-- Well-formedness of a native world: every open handle was allocated
below the fresh-handle counter. -/
def WInv (w : NativeWorld) : Prop :=
  ∀ h ∈ w.openHandles, h < w.nextHandle

/-- Modelled from the spec: the native `xcm_accept` of `libxcm` (only
its ctypes declaration is in the repository).  On an open server handle
it produces a brand-new socket handle for the inbound connection, in
the default blocking mode (not inherited from the server) and with its
own pollable descriptor; on anything else it returns NULL with an
errno.  (Whether an inbound attempt is pending is environmental; the
model lets accept succeed on every open server handle, which is the
only case the claims quantify over.) -/
def xcm_accept_spec : Option Nat → NativeWorld → NativeWorld × Option Nat × Nat
  | none, w => (w, none, EBADF)
  | some sh, w =>
    if sh ∈ w.openHandles then
      ({ nextHandle := w.nextHandle + 1,
         openHandles := w.nextHandle :: w.openHandles,
         blocking := fun x => if x = w.nextHandle then true else w.blocking x },
       some w.nextHandle, 0)
    else (w, none, EBADF)

/-- Modelled from the spec: the native `xcm_close` of `libxcm` (only its
ctypes declaration is in the repository).  It releases exactly the given
handle — it is removed from the set of open handles and every other
handle is unaffected. -/
def xcm_close_spec (h : Nat) (w : NativeWorld) : NativeWorld × Int :=
  ({ w with openHandles := w.openHandles.filter (fun x => x != h) }, 0)

/-- Modelled from the spec: the native `xcm_fd` of `libxcm` (only its
ctypes declaration is in the repository).  Each open handle has its own
stable OS-level pollable descriptor; the model identifies the
descriptor with the handle, which keeps distinct handles on distinct
descriptors. -/
def xcm_fd_spec (h : Nat) (w : NativeWorld) : NativeWorld × Int × Nat :=
  (w, (h : Int), 0)

/-- C1: the spec claims that after close() EVERY subsequent operation
fails with an Invalid Usage error.  The operations guarded by
`_assure_open` — close, finish, set_blocking, is_blocking,
update (subscribe), fileno, get_attr — do fail immediately with the
assertion and perform no native call.  But `ConnectionSocket.send`,
`ConnectionSocket.receive` and `ServerSocket.accept` lack the guard: on
a closed socket they do not fail with Invalid Usage — each reaches the
native library, passing the NULL (`none`) handle, as the recorded call
traces show.  This contradicts the claim and the evident intent of the
`_assure_open` device, so it is recorded as a code bug. -/
theorem closed_handle_guard_gap :
    (Socket.close closeRec [] ⟨none, 0⟩ = (.error .assertionError, ⟨none, 0⟩, []))
  ∧ (Socket.finish (fun h t => (t ++ [NCall.finishC h], 0, 0)) [] ⟨none, 0⟩
      = (.error .assertionError, []))
  ∧ (Socket.set_blocking (fun h v t => t ++ [NCall.setBlockingC h v]) [] ⟨none, 0⟩ false
      = (.error .assertionError, []))
  ∧ (Socket.is_blocking (fun h t => (t ++ [NCall.isBlockingC h], true)) [] ⟨none, 0⟩
      = (.error .assertionError, []))
  ∧ (Socket.update (awaitRec (fun _ _ => 0)) [] ⟨none, 0⟩ 1
      = (.error .assertionError, ⟨none, 0⟩, []))
  ∧ (Socket.fileno (fun h t => (t ++ [NCall.fdC h], 0, 0)) [] ⟨none, 0⟩
      = (.error .assertionError, []))
  ∧ (Socket.get_attr (fun h n c t => (t ++ [NCall.attrGetC h n c], -1, 0, [], 0)) [] ⟨none, 0⟩ "xcm.type"
      = (.error .assertionError, []))
  ∧ (ConnectionSocket.send (fun h m t => (t ++ [NCall.sendC h m], -1, EBADF)) [] ⟨none, 0⟩ [1]
      = (.error (_raise_io_err EBADF), [NCall.sendC none [1]]))
  ∧ (ConnectionSocket.receive (fun h _ t => (t ++ [NCall.receiveC h], -1, [], EBADF)) [] ⟨none, 0⟩
      = (.error (_raise_io_err EBADF), [NCall.receiveC none]))
  ∧ (ServerSocket.accept (fun h t => (t ++ [NCall.acceptC h], none, EBADF)) [] ⟨none, 0⟩
      = (.error (_raise_io_err EBADF), [NCall.acceptC none])) :=
  ⟨rfl, rfl, rfl, rfl, rfl, rfl, rfl, rfl, rfl, rfl⟩

/-- C2: re-subscribing with the cached mask performs no registration
call and leaves the socket unchanged; two consecutive subscribes with
the identical mask are observably one; a different mask performs
exactly one native `xcm_await` registration and caches the new mask;
a rejected (invalid) mask raises `ValueError` and leaves the cached
mask unchanged.  The native state is the recorded call trace, and
`rcOf` is the native verdict on each requested mask. -/
theorem update_idempotent_cached_mask (rcOf : Nat → Nat → Int) (s : Socket)
    (h m : Nat) (hopen : s.xcm_socket = some h) :
    (s.condition = m → Socket.update (awaitRec rcOf) [] s m = (.ok (), s, []))
  ∧ (∀ s1 t1, Socket.update (awaitRec rcOf) [] s m = (.ok (), s1, t1) →
      Socket.update (awaitRec rcOf) t1 s1 m = (.ok (), s1, t1))
  ∧ (s.condition ≠ m → 0 ≤ rcOf h m →
      Socket.update (awaitRec rcOf) [] s m
        = (.ok (), { s with condition := m }, [NCall.awaitC h m]))
  ∧ (s.condition ≠ m → rcOf h m < 0 →
      Socket.update (awaitRec rcOf) [] s m
        = (.error (.valueError ("invalid condition: " ++ toString m)), s,
           [NCall.awaitC h m])) := by
  refine ⟨?_, ?_, ?_, ?_⟩
  · intro hc
    simp [Socket.update, hopen, hc]
  · intro s1 t1 heq
    by_cases hc : m = s.condition
    · simp [Socket.update, hopen, hc] at heq
      obtain ⟨hs1, ht1⟩ := heq
      simp [Socket.update, hopen, ← hs1, hc, ← ht1]
    · by_cases hrc : rcOf h m < 0
      · simp [Socket.update, hopen, hc, awaitRec, hrc] at heq
      · simp [Socket.update, hopen, hc, awaitRec, hrc] at heq
        obtain ⟨hs1, ht1⟩ := heq
        simp [Socket.update, ← hs1, hopen, ← ht1]
  · intro hc hrc
    simp [Socket.update, hopen, Ne.symm hc, awaitRec, not_lt.mpr hrc]
  · intro hc hrc
    simp [Socket.update, hopen, Ne.symm hc, awaitRec, hrc]

/-- Witness for C2: on a socket whose cached mask is already 0,
subscribing with 0 is a no-op with no native call. -/
theorem update_idempotent_cached_mask_witness :
    Socket.update (awaitRec (fun _ _ => 0)) [] ⟨some 5, 0⟩ 0
      = (.ok (), ⟨some 5, 0⟩, []) :=
  (update_idempotent_cached_mask (fun _ _ => 0) ⟨some 5, 0⟩ 5 0 rfl).1 rfl

/-- C5: every failing operation raises the structured error built by
`_raise_io_err`, carrying both the OS errno reported by the native call
and the `os.strerror` description of that same code (including the
distinguished would-block code `EAGAIN`), and produces no usable result
value.  Stated for connect, server, accept, send, receive, finish,
pollable-handle fetch and attribute get, for every errno `e`. -/
theorem failing_ops_raise_structured_error (e : Nat) :
    (∀ addr flags, connect (fun _ _ => none) e addr flags
        = .error (.ioError e (strerror e)))
  ∧ (∀ addr, server (fun _ => none) e addr = .error (.ioError e (strerror e)))
  ∧ (∀ (st : List NCall) (s : Socket),
      ServerSocket.accept (fun h t => (t ++ [NCall.acceptC h], none, e)) st s
        = (.error (.ioError e (strerror e)), st ++ [NCall.acceptC s.xcm_socket]))
  ∧ (∀ (st : List NCall) (s : Socket) (msg : List Nat),
      ConnectionSocket.send (fun h m t => (t ++ [NCall.sendC h m], -1, e)) st s msg
        = (.error (.ioError e (strerror e)), st ++ [NCall.sendC s.xcm_socket msg]))
  ∧ (∀ (st : List NCall) (s : Socket),
      ConnectionSocket.receive (fun h _ t => (t ++ [NCall.receiveC h], -1, [], e)) st s
        = (.error (.ioError e (strerror e)), st ++ [NCall.receiveC s.xcm_socket]))
  ∧ (∀ (st : List NCall) (s : Socket) (h : Nat), s.xcm_socket = some h →
      Socket.finish (fun hh t => (t ++ [NCall.finishC hh], -1, e)) st s
        = (.error (.ioError e (strerror e)), st ++ [NCall.finishC h]))
  ∧ (∀ (st : List NCall) (s : Socket) (h : Nat), s.xcm_socket = some h →
      Socket.fileno (fun hh t => (t ++ [NCall.fdC hh], -1, e)) st s
        = (.error (.ioError e (strerror e)), st ++ [NCall.fdC h]))
  ∧ (∀ (st : List NCall) (s : Socket) (h : Nat) (name : String), s.xcm_socket = some h →
      Socket.get_attr (fun hh n c t => (t ++ [NCall.attrGetC hh n c], -1, 0, [], e)) st s name
        = (.error (.ioError e (strerror e)), st ++ [NCall.attrGetC h name 1024])) := by
  refine ⟨fun _ _ => rfl, fun _ => rfl, fun _ _ => rfl, fun _ _ _ => rfl,
    fun _ _ => rfl, ?_, ?_, ?_⟩
  · intro st s h hopen
    simp [Socket.finish, hopen, _raise_io_err]
  · intro st s h hopen
    simp [Socket.fileno, hopen, _raise_io_err]
  · intro st s h name hopen
    simp [Socket.get_attr, hopen, _raise_io_err]

/-- Witness for C5: a failing `finish` with errno `EAGAIN` raises the
structured error carrying the code 11 and its description. -/
theorem failing_ops_raise_structured_error_witness :
    Socket.finish (fun hh t => (t ++ [NCall.finishC hh], -1, EAGAIN)) [] ⟨some 3, 0⟩
      = (.error (.ioError EAGAIN (strerror EAGAIN)), [NCall.finishC 3]) := by
  have := (failing_ops_raise_structured_error EAGAIN).2.2.2.2.2.1 [] ⟨some 3, 0⟩ 3 rfl
  simpa using this

/-- C8: explicit close() on an already-closed handle trips the
`_assure_open` assertion — a rejected usage error, not a silent success
— and performs no native release; owner teardown (`__del__`) on an
already-closed socket raises no error and performs no second native
release. -/
theorem close_asserts_del_defends (s : Socket) (st : List NCall)
    (hclosed : s.xcm_socket = none) :
    Socket.close closeRec st s = (.error .assertionError, s, st)
  ∧ Socket.del closeRec st s = (.ok (), s, st) := by
  constructor
  · simp [Socket.close, hclosed]
  · simp [Socket.del, hclosed]

/-- Witness for C8: a concrete closed socket, with a nonempty prior
trace showing no further native close is appended. -/
theorem close_asserts_del_defends_witness :
    Socket.close closeRec [NCall.closeC 7] ⟨none, 3⟩
      = (.error .assertionError, ⟨none, 3⟩, [NCall.closeC 7])
  ∧ Socket.del closeRec [NCall.closeC 7] ⟨none, 3⟩
      = (.ok (), ⟨none, 3⟩, [NCall.closeC 7]) :=
  close_asserts_del_defends ⟨none, 3⟩ [NCall.closeC 7] rfl

/-- C10: every socket object the entry points return wraps a non-null
native handle and starts with a cached readiness condition of 0; when
the native layer yields NULL, connect and server raise instead of
returning a socket (and accept does likewise, by
`failing_ops_raise_structured_error`-style reasoning on its `none`
branch, restated here through its success case). -/
theorem entry_points_open_invariant :
    (∀ (native : String → Nat → Option Nat) (e : Nat) (addr : String)
        (flags : Nat) (sock : Socket),
        connect native e addr flags = .ok sock →
          sock.xcm_socket ≠ none ∧ sock.condition = 0)
  ∧ (∀ (e : Nat) (addr : String) (flags : Nat),
        connect (fun _ _ => none) e addr flags = .error (_raise_io_err e))
  ∧ (∀ (native : String → Option Nat) (e : Nat) (addr : String) (sock : Socket),
        server native e addr = .ok sock →
          sock.xcm_socket ≠ none ∧ sock.condition = 0)
  ∧ (∀ (e : Nat) (addr : String),
        server (fun _ => none) e addr = .error (_raise_io_err e))
  ∧ (∀ (oracle : Option Nat → List NCall → List NCall × Option Nat × Nat)
        (st : List NCall) (s sock : Socket) (st1 : List NCall),
        ServerSocket.accept oracle st s = (.ok sock, st1) →
          sock.xcm_socket ≠ none ∧ sock.condition = 0) := by
  refine ⟨?_, fun _ _ _ => rfl, ?_, fun _ _ => rfl, ?_⟩
  · intro native e addr flags sock hok
    cases hnat : native addr flags with
    | none => simp [connect, hnat] at hok
    | some a =>
      simp [connect, hnat] at hok
      simp [← hok]
  · intro native e addr sock hok
    cases hnat : native addr with
    | none => simp [server, hnat] at hok
    | some a =>
      simp [server, hnat] at hok
      simp [← hok]
  · intro oracle st s sock st1 hok
    rcases hor : oracle s.xcm_socket st with ⟨st', r, e⟩
    cases r with
    | none => simp [ServerSocket.accept, hor] at hok
    | some a =>
      simp [ServerSocket.accept, hor] at hok
      simp [← hok.1]

/-- Witness for C10: a successful accept wrapping native handle 7
yields an open socket with an empty subscription cache. -/
theorem entry_points_open_invariant_witness :
    (⟨some 7, 0⟩ : Socket).xcm_socket ≠ none ∧ (⟨some 7, 0⟩ : Socket).condition = 0 :=
  entry_points_open_invariant.2.2.2.2 (fun _ t => (t, some 7, 0)) [] ⟨some 2, 0⟩
    ⟨some 7, 0⟩ [] rfl

/-- C3: on an open Connection Socket, sending a message longer than the
fixed maximum of 65535 bytes fails with the Resource Exhaustion error
(`EMSGSIZE` and its description) and leaves the transport FIFO
untouched — no partial or garbled bytes are delivered and no usable
result is produced. -/
theorem send_oversize_rejected (q : List (List Nat)) (s : Socket) (h : Nat)
    (msg : List Nat) (hopen : s.xcm_socket = some h)
    (hlen : msg.length > MAX_MSG) :
    ConnectionSocket.send xcm_send_spec q s msg
      = (.error (.ioError EMSGSIZE (strerror EMSGSIZE)), q) := by
  simp [ConnectionSocket.send, xcm_send_spec, hopen, hlen, _raise_io_err]

/-- Witness for C3: a 65536-byte message is rejected with Resource
Exhaustion and the transport FIFO stays empty. -/
theorem send_oversize_rejected_witness :
    ConnectionSocket.send xcm_send_spec [] ⟨some 1, 0⟩ (List.replicate 65536 0)
      = (.error (.ioError EMSGSIZE (strerror EMSGSIZE)), []) :=
  send_oversize_rejected [] ⟨some 1, 0⟩ 1 (List.replicate 65536 0) rfl
    (by rw [List.length_replicate]; decide)

/-- C4: on an open Connection Socket, a successful receive returns
exactly the bytes of the one message at the head of the peer's FIFO —
never a partial message, never two coalesced — and consumes exactly
that message; when the FIFO is exhausted and the peer performed an
orderly shutdown, receive returns the empty (length 0) result and the
state is unchanged. -/
theorem receive_whole_message (st : RecvState) (s : Socket) (h : Nat)
    (hopen : s.xcm_socket = some h) :
    (∀ m rest, st.incoming = m :: rest → m.length ≤ MAX_MSG →
        ConnectionSocket.receive xcm_receive_spec st s
          = (.ok m, { st with incoming := rest }))
  ∧ (st.incoming = [] → st.peerShutdown = true →
        ConnectionSocket.receive xcm_receive_spec st s = (.ok [], st)) := by
  constructor
  · intro m rest hq hlen
    have h0 : ¬ ((m.length : Int) < 0) := not_lt.mpr (Int.natCast_nonneg _)
    simp only [ConnectionSocket.receive, xcm_receive_spec, hopen, hq,
      if_pos hlen, if_neg h0, Int.toNat_natCast, writeBuf]
    rw [List.take_left]
  · intro hq hsd
    simp [ConnectionSocket.receive, xcm_receive_spec, hopen, hq, hsd, writeBuf]

/-- Witness for C4: with messages [5, 6] then [7] queued, receive
returns exactly [5, 6] and leaves [7] queued. -/
theorem receive_whole_message_witness :
    ConnectionSocket.receive xcm_receive_spec ⟨[[5, 6], [7]], false⟩ ⟨some 1, 0⟩
      = (.ok [5, 6], ⟨[[7]], false⟩) :=
  (receive_whole_message ⟨[[5, 6], [7]], false⟩ ⟨some 1, 0⟩ 1 rfl).1 [5, 6] [[7]]
    rfl (by simp [MAX_MSG])

/-- C6: `_conv_attr` decodes the returned buffer according to the
declared type tag — boolean from the first byte, signed 64-bit
little-endian integer from the first eight bytes, UTF-8 string from the
NUL-terminated prefix, binary blob as the first `attr_len` bytes — so
that every successfully returned value's kind agrees with the tag, and
every tag outside these four kinds is rejected with a `ValueError`
rather than returned as wrong bytes. -/
theorem conv_attr_tag_fidelity (ty : Int) (buf : List Nat) (len : Nat) :
    (ty = ATTR_TYPE_BOOL → _conv_attr ty buf len = .ok (.boolVal (decodeBool buf)))
  ∧ (ty = ATTR_TYPE_INT64 → _conv_attr ty buf len = .ok (.intVal (decodeInt64 buf)))
  ∧ (ty = ATTR_TYPE_STR →
      (∀ cps, utf8Decode (cstrBytes buf) = some cps →
          _conv_attr ty buf len = .ok (.strVal cps))
      ∧ (utf8Decode (cstrBytes buf) = none →
          _conv_attr ty buf len = .error .unicodeDecodeError))
  ∧ (ty = ATTR_TYPE_BIN → _conv_attr ty buf len = .ok (.binVal (buf.take len)))
  ∧ (ty ≠ ATTR_TYPE_BOOL → ty ≠ ATTR_TYPE_INT64 → ty ≠ ATTR_TYPE_STR →
      ty ≠ ATTR_TYPE_BIN →
      _conv_attr ty buf len
        = .error (.valueError ("Invalid argument type " ++ toString ty)))
  ∧ (∀ v, _conv_attr ty buf len = .ok v → AttrValue.tagOf v = ty) := by
  refine ⟨?_, ?_, ?_, ?_, ?_, ?_⟩
  · intro h1
    simp [_conv_attr, h1, ATTR_TYPE_BOOL]
  · intro h2
    simp [_conv_attr, h2, ATTR_TYPE_BOOL, ATTR_TYPE_INT64]
  · intro h3
    constructor
    · intro cps hu
      simp [_conv_attr, h3, ATTR_TYPE_BOOL, ATTR_TYPE_INT64, ATTR_TYPE_STR, hu]
    · intro hu
      simp [_conv_attr, h3, ATTR_TYPE_BOOL, ATTR_TYPE_INT64, ATTR_TYPE_STR, hu]
  · intro h4
    simp [_conv_attr, h4, ATTR_TYPE_BOOL, ATTR_TYPE_INT64, ATTR_TYPE_STR,
      ATTR_TYPE_BIN]
  · intro h1 h2 h3 h4
    simp [_conv_attr, h1, h2, h3, h4]
  · intro v hv
    by_cases h1 : ty = ATTR_TYPE_BOOL
    · simp [_conv_attr, h1, ATTR_TYPE_BOOL] at hv
      simp [← hv, AttrValue.tagOf, h1]
    · by_cases h2 : ty = ATTR_TYPE_INT64
      · simp [_conv_attr, h1, h2, ATTR_TYPE_BOOL, ATTR_TYPE_INT64] at hv
        simp [← hv, AttrValue.tagOf, h2]
      · by_cases h3 : ty = ATTR_TYPE_STR
        · cases hu : utf8Decode (cstrBytes buf) with
          | none => simp [_conv_attr, h1, h2, h3, ATTR_TYPE_BOOL,
              ATTR_TYPE_INT64, ATTR_TYPE_STR, hu] at hv
          | some cps =>
            simp [_conv_attr, h1, h2, h3, ATTR_TYPE_BOOL, ATTR_TYPE_INT64,
              ATTR_TYPE_STR, hu] at hv
            simp [← hv, AttrValue.tagOf, h3]
        · by_cases h4 : ty = ATTR_TYPE_BIN
          · simp [_conv_attr, h1, h2, h3, h4, ATTR_TYPE_BOOL, ATTR_TYPE_INT64,
              ATTR_TYPE_STR, ATTR_TYPE_BIN] at hv
            simp [← hv, AttrValue.tagOf, h4]
          · simp [_conv_attr, h1, h2, h3, h4] at hv

/-- Witness for C6: the out-of-range tag 5 is rejected with a decode
error naming the tag. -/
theorem conv_attr_tag_fidelity_witness :
    _conv_attr 5 [1, 2] 1
      = .error (.valueError ("Invalid argument type " ++ toString (5 : Int))) :=
  (conv_attr_tag_fidelity 5 [1, 2] 1).2.2.2.2.1 (by decide) (by decide)
    (by decide) (by decide)

/-- C7: the native attribute read takes a caller-provided buffer with a
caller-specified maximum capacity and fails with Resource Exhaustion
(`EOVERFLOW`) whenever the true value exceeds that capacity (first
conjunct, for every capacity); through the binding, which supplies a
1024-byte buffer, a value longer than 1024 bytes makes `get_attr` raise
the structured Resource Exhaustion error rather than silently return
truncated data (second conjunct). -/
theorem get_attr_capacity_enforced (store : AttrStore) (s : Socket) (h : Nat)
    (name : String) (ty : Int) (val : List Nat)
    (hopen : s.xcm_socket = some h)
    (hval : store.attrs.lookup name = some (ty, val)) :
    (∀ capacity, val.length > capacity →
        xcm_attr_get_spec h name capacity store = (store, -1, 0, [], EOVERFLOW))
  ∧ (val.length > 1024 →
        Socket.get_attr xcm_attr_get_spec store s name
          = (.error (.ioError EOVERFLOW (strerror EOVERFLOW)), store)) := by
  constructor
  · intro capacity hcap
    simp [xcm_attr_get_spec, hval, hcap]
  · intro hcap
    simp [Socket.get_attr, hopen, xcm_attr_get_spec, hval, hcap, _raise_io_err]

/-- Witness for C7: a 1025-byte binary attribute value does not fit the
binding's 1024-byte buffer and the retrieval fails with Resource
Exhaustion. -/
theorem get_attr_capacity_enforced_witness :
    Socket.get_attr xcm_attr_get_spec
        ⟨[("tls.peer.cert", 4, List.replicate 1025 7)]⟩ ⟨some 1, 0⟩ "tls.peer.cert"
      = (.error (.ioError EOVERFLOW (strerror EOVERFLOW)),
         ⟨[("tls.peer.cert", 4, List.replicate 1025 7)]⟩) :=
  (get_attr_capacity_enforced ⟨[("tls.peer.cert", 4, List.replicate 1025 7)]⟩
    ⟨some 1, 0⟩ 1 "tls.peer.cert" 4 (List.replicate 1025 7) rfl
    rfl).2 (by rw [List.length_replicate]; decide)

/-- C9: a successful accept on an open Server Socket yields a brand-new
Connection Socket: its native handle is fresh (never open before) and
distinct from the server's, its subscription cache starts at 0, its
blocking mode is the default true regardless of the server's mode, its
pollable descriptor is its own (distinct from the server's), and
closing it removes only its handle — the server's handle and any other
open handle survive. -/
theorem accept_independent_socket (w : NativeWorld) (s : Socket) (sh h2 : Nat)
    (hinv : WInv w) (hs : s.xcm_socket = some sh)
    (hsh : sh ∈ w.openHandles) (hh2 : h2 ∈ w.openHandles) :
    ∃ c w1, ServerSocket.accept xcm_accept_spec w s = (.ok c, w1)
  ∧ c.xcm_socket = some w.nextHandle
  ∧ w.nextHandle ∉ w.openHandles
  ∧ w.nextHandle ≠ sh
  ∧ c.condition = 0
  ∧ w1.blocking w.nextHandle = true
  ∧ Socket.fileno xcm_fd_spec w1 c = (.ok (w.nextHandle : Int), w1)
  ∧ Socket.fileno xcm_fd_spec w1 s = (.ok (sh : Int), w1)
  ∧ sh ∈ (Socket.close xcm_close_spec w1 c).2.2.openHandles
  ∧ h2 ∈ (Socket.close xcm_close_spec w1 c).2.2.openHandles
  ∧ w.nextHandle ∉ (Socket.close xcm_close_spec w1 c).2.2.openHandles := by
  have hfreshmem : w.nextHandle ∉ w.openHandles := fun hmem =>
    absurd (hinv _ hmem) (lt_irrefl _)
  have hne_sh : w.nextHandle ≠ sh := (hinv sh hsh).ne'
  have hne_h2 : w.nextHandle ≠ h2 := (hinv h2 hh2).ne'
  refine ⟨⟨some w.nextHandle, 0⟩,
    ⟨w.nextHandle + 1, w.nextHandle :: w.openHandles,
      fun x => if x = w.nextHandle then true else w.blocking x⟩,
    ?_, rfl, hfreshmem, hne_sh, rfl, by simp, ?_, ?_, ?_, ?_, ?_⟩
  · simp [ServerSocket.accept, xcm_accept_spec, hs, hsh]
  · simp [Socket.fileno, xcm_fd_spec]
  · simp [Socket.fileno, xcm_fd_spec, hs]
  · simp only [Socket.close, xcm_close_spec]
    exact List.mem_filter.mpr ⟨List.mem_cons_of_mem _ hsh,
      bne_iff_ne.mpr (Ne.symm hne_sh)⟩
  · simp only [Socket.close, xcm_close_spec]
    exact List.mem_filter.mpr ⟨List.mem_cons_of_mem _ hh2,
      bne_iff_ne.mpr (Ne.symm hne_h2)⟩
  · simp only [Socket.close, xcm_close_spec]
    intro hmem
    exact absurd (List.mem_filter.mp hmem).2 (by simp)

/-- Witness for C9: world with open handles 0 (the server) and 1 (an
earlier accepted socket); accepting allocates fresh handle 2, blocking
by default though the server is non-blocking, and closing it leaves 0
and 1 open. -/
theorem accept_independent_socket_witness :
    ∃ c w1, ServerSocket.accept xcm_accept_spec ⟨2, [0, 1], fun _ => false⟩ ⟨some 0, 0⟩
        = (.ok c, w1)
  ∧ c.xcm_socket = some (NativeWorld.mk 2 [0, 1] (fun _ => false)).nextHandle
  ∧ (NativeWorld.mk 2 [0, 1] (fun _ => false)).nextHandle
      ∉ (NativeWorld.mk 2 [0, 1] (fun _ => false)).openHandles
  ∧ (NativeWorld.mk 2 [0, 1] (fun _ => false)).nextHandle ≠ 0
  ∧ c.condition = 0
  ∧ w1.blocking (NativeWorld.mk 2 [0, 1] (fun _ => false)).nextHandle = true
  ∧ Socket.fileno xcm_fd_spec w1 c
      = (.ok ((NativeWorld.mk 2 [0, 1] (fun _ => false)).nextHandle : Int), w1)
  ∧ Socket.fileno xcm_fd_spec w1 ⟨some 0, 0⟩ = (.ok ((0 : Nat) : Int), w1)
  ∧ 0 ∈ (Socket.close xcm_close_spec w1 c).2.2.openHandles
  ∧ 1 ∈ (Socket.close xcm_close_spec w1 c).2.2.openHandles
  ∧ (NativeWorld.mk 2 [0, 1] (fun _ => false)).nextHandle
      ∉ (Socket.close xcm_close_spec w1 c).2.2.openHandles :=
  accept_independent_socket ⟨2, [0, 1], fun _ => false⟩ ⟨some 0, 0⟩ 0 1
    (by intro x hx; fin_cases hx <;> decide) rfl (by decide) (by decide)

end Xcm
